import Mathlib

/-!
Verification development for the HYBRID-IDS-MCP NIDS core.

This file shallowly embeds the C++ sources under `src/nids/` into Lean:

* `src/nids/common/types.h`           — packet, rule and alert records;
* `src/nids/features/connection_tracker.{h,cpp}` — the flow table;
* `src/nids/parser/packet_parser.{h,cpp}`        — the packet decoder;
* `src/nids/rules/rule_engine.cpp`    — the signature rule engine;
* `src/nids/features/feature_extractor.cpp`      — bulk-feature fragment.

Modelling conventions:

* machine integers become `Nat`/`Int`; where C++ unsigned wrap-around can
  occur and matters (the uint32 transport-length computation in the
  decoder) the subtraction is taken explicitly modulo `2 ^ 32`;
* `double` values that the relevant code computes exactly (sums,
  differences and divisions of integers) become `Rat`; the lazily
  computed mean / standard-deviation fields of `FlowStats` involve a
  floating-point square root, feed no claim below, and are omitted;
* `std::chrono::system_clock::time_point` becomes an `Int` count of
  milliseconds, matching the `duration_cast<milliseconds>` granularity
  used by the tracker;
* byte buffers (`const uint8_t*` plus a length) become `List Nat`; a read
  `data[i]` becomes `List.getD data i 0`;
* `std::string` fields that are only carried around (rule names,
  descriptions, actions) and byte-string payload patterns become
  `List Nat` (their bytes);
* the multi-byte loads are written for a little-endian host (the target
  of the build scripts); this only fixes the numeric representation of
  ports and addresses and affects no claim;
* `std::unordered_map` becomes an association list in insertion order;
  lookup is by key equality, exactly as the map's `find`/`operator[]`.
-/

namespace HybridIds

/-- `Protocol` enumeration of `types.h`. -/
inductive Protocol where
  | UNKNOWN | ETHERNET | IPV4 | IPV6 | TCP | UDP | ICMP | HTTP | DNS | TLS
deriving DecidableEq, Repr

/-- `Severity` enumeration of `types.h`. -/
inductive Severity where
  | LOW | MEDIUM | HIGH | CRITICAL
deriving DecidableEq, Repr

/-- `EthernetHeader` of `types.h` (MAC bytes kept as raw byte lists). -/
structure EthernetHeader where
  dst_mac : List Nat
  src_mac : List Nat
  ethertype : Nat
deriving DecidableEq, Repr

/-- `IPv4Header` of `types.h`. `src_ip`/`dst_ip` hold the 32-bit value the
C++ code keeps in memory (network byte order, read on a little-endian
host); the code only ever compares these values or renders them, and the
rendering is injective, so the raw value is the whole observable state. -/
structure IPv4Header where
  version_ihl : Nat
  tos : Nat
  total_length : Nat
  identification : Nat
  flags_fragment : Nat
  ttl : Nat
  protocol : Nat
  checksum : Nat
  src_ip : Nat
  dst_ip : Nat
deriving DecidableEq, Repr

/-- `TCPHeader` of `types.h`. -/
structure TCPHeader where
  src_port : Nat
  dst_port : Nat
  seq_number : Nat
  ack_number : Nat
  data_offset : Nat
  flags : Nat
  window_size : Nat
  checksum : Nat
  urgent_pointer : Nat
deriving DecidableEq, Repr

/-- `UDPHeader` of `types.h`. -/
structure UDPHeader where
  src_port : Nat
  dst_port : Nat
  length : Nat
  checksum : Nat
deriving DecidableEq, Repr

/-- `ParsedPacket` of `types.h`.  `timestamp` is in milliseconds.
`payload` holds the bytes of the buffer that the payload pointer actually
points into, while `payload_length` is the stored `payload_length` field
(the two agree whenever the decoder's arithmetic did not wrap). -/
structure ParsedPacket where
  timestamp : Int
  packet_id : Nat
  raw_length : Nat
  eth_header : EthernetHeader
  ip_header : IPv4Header
  has_tcp : Bool
  has_udp : Bool
  tcp_header : TCPHeader
  udp_header : UDPHeader
  payload : List Nat
  payload_length : Nat
deriving DecidableEq, Repr

/-- `ntohs` on a little-endian host: swap the two low bytes. -/
def ntohs (x : Nat) : Nat := (x % 256) * 256 + (x / 256) % 256

/-- `ParsedPacket::get_src_port` (`types.cpp`). -/
def ParsedPacket.get_src_port (p : ParsedPacket) : Nat :=
  if p.has_tcp then ntohs p.tcp_header.src_port
  else if p.has_udp then ntohs p.udp_header.src_port
  else 0

/-- `ParsedPacket::get_dst_port` (`types.cpp`). -/
def ParsedPacket.get_dst_port (p : ParsedPacket) : Nat :=
  if p.has_tcp then ntohs p.tcp_header.dst_port
  else if p.has_udp then ntohs p.udp_header.dst_port
  else 0

/-- `ParsedPacket::get_src_ip` (`types.cpp`) renders the stored 32-bit
value as a dotted quad; the rendering is injective, so the model keeps
the raw value. -/
def ParsedPacket.get_src_ip (p : ParsedPacket) : Nat := p.ip_header.src_ip

/-- `ParsedPacket::get_dst_ip` (`types.cpp`), as `get_src_ip`. -/
def ParsedPacket.get_dst_ip (p : ParsedPacket) : Nat := p.ip_header.dst_ip

/-- `ParsedPacket::get_protocol` (`types.cpp`): the bytes of
"TCP" / "UDP" / "OTHER". -/
def ParsedPacket.get_protocol (p : ParsedPacket) : List Nat :=
  if p.has_tcp then [84, 67, 80]
  else if p.has_udp then [85, 68, 80]
  else [79, 84, 72, 69, 82]

/-! ## Connection tracker (`connection_tracker.{h,cpp}`) -/

/-- `ConnectionState` of `connection_tracker.h`. -/
inductive ConnectionState where
  | SYN_SENT | SYN_RECEIVED | ESTABLISHED | FIN_WAIT | CLOSED | UNKNOWN
deriving DecidableEq, Repr

/-- `ConnectionKey` of `connection_tracker.h`; equality is field-wise. -/
structure ConnectionKey where
  src_ip : Nat
  dst_ip : Nat
  src_port : Nat
  dst_port : Nat
  protocol : Nat
deriving DecidableEq, Repr

/-- `FlowStats` of `connection_tracker.h`.  Times are milliseconds,
`duration` is the seconds value the code stores (exact at millisecond
granularity).  The on-demand mean/std fields computed by
`update_computed_features` involve `std::sqrt`, feed no claim, and are
omitted from the model. -/
structure FlowStats where
  start_time : Int
  last_seen : Int
  duration : Rat
  fwd_packets : Nat
  fwd_bytes : Nat
  fwd_iat : List Rat
  fwd_pkt_lengths : List Nat
  bwd_packets : Nat
  bwd_bytes : Nat
  bwd_iat : List Rat
  bwd_pkt_lengths : List Nat
  syn_count : Nat
  ack_count : Nat
  fin_count : Nat
  rst_count : Nat
  psh_count : Nat
  urg_count : Nat
  state : ConnectionState
deriving DecidableEq, Repr

/-- Tracker state: the members of class `ConnectionTracker`.  The
`unordered_map` is an association list in insertion order. -/
structure ConnectionTracker where
  connections_ : List (ConnectionKey × FlowStats)
  timeout_seconds_ : Nat
  max_connections_ : Nat
  total_connections_ : Nat
  expired_connections_ : Nat
deriving DecidableEq, Repr

/-- The constructor `ConnectionTracker(timeout_seconds, max_connections)`. -/
def ConnectionTracker.init (timeout_seconds max_connections : Nat) : ConnectionTracker :=
  { connections_ := [], timeout_seconds_ := timeout_seconds,
    max_connections_ := max_connections, total_connections_ := 0,
    expired_connections_ := 0 }

/-- `ConnectionTracker::create_key` (`connection_tracker.cpp` lines 23-32). -/
def ConnectionTracker.create_key (p : ParsedPacket) : ConnectionKey :=
  { src_ip := p.ip_header.src_ip, dst_ip := p.ip_header.dst_ip,
    src_port := p.get_src_port, dst_port := p.get_dst_port,
    protocol := p.ip_header.protocol }

/-- `ConnectionTracker::is_expired` (lines 183-189): age in whole seconds
(`duration_cast<seconds>`, truncation toward zero, hence `Int.tdiv`) from
`last_seen` to the current wall clock `now`, compared with the timeout;
or the flow is `CLOSED`. -/
def ConnectionTracker.is_expired (tr : ConnectionTracker) (now : Int) (flow : FlowStats) : Bool :=
  decide ((tr.timeout_seconds_ : Int) < Int.tdiv (now - flow.last_seen) 1000
    ∨ flow.state = ConnectionState.CLOSED)

/-- `ConnectionTracker::cleanup_expired` (lines 170-181): erase every
expired entry, counting them.  `now` is the wall clock the C++ code reads
via `system_clock::now()`, passed explicitly here. -/
def ConnectionTracker.cleanup_expired (tr : ConnectionTracker) (now : Int) : ConnectionTracker :=
  let kept := tr.connections_.filter (fun e => !(tr.is_expired now e.2))
  { tr with connections_ := kept,
            expired_connections_ :=
              tr.expired_connections_ + (tr.connections_.length - kept.length) }

/-- `ConnectionTracker::update_tcp_state` (lines 118-155). -/
def ConnectionTracker.update_tcp_state (s : ConnectionState) (flags : Nat) : ConnectionState :=
  match s with
  | .UNKNOWN =>
      if flags &&& 2 ≠ 0 ∧ ¬(flags &&& 16 ≠ 0) then .SYN_SENT else s
  | .SYN_SENT =>
      if flags &&& 2 ≠ 0 ∧ flags &&& 16 ≠ 0 then .SYN_RECEIVED else s
  | .SYN_RECEIVED =>
      if flags &&& 16 ≠ 0 then .ESTABLISHED else s
  | .ESTABLISHED =>
      if flags &&& 1 ≠ 0 then .FIN_WAIT
      else if flags &&& 4 ≠ 0 then .CLOSED
      else s
  | .FIN_WAIT =>
      if flags &&& 1 ≠ 0 ∨ flags &&& 4 ≠ 0 then .CLOSED else s
  | .CLOSED => s

/-- The flow created for a previously unseen key
(`ConnectionTracker::update`, lines 47-63): zero-initialised, state
`UNKNOWN`, both time stamps at the packet's timestamp. -/
def ConnectionTracker.initFlow (p : ParsedPacket) : FlowStats :=
  { start_time := p.timestamp, last_seen := p.timestamp, duration := 0,
    fwd_packets := 0, fwd_bytes := 0, fwd_iat := [], fwd_pkt_lengths := [],
    bwd_packets := 0, bwd_bytes := 0, bwd_iat := [], bwd_pkt_lengths := [],
    syn_count := 0, ack_count := 0, fin_count := 0, rst_count := 0,
    psh_count := 0, urg_count := 0, state := ConnectionState.UNKNOWN }

/-- The per-packet mutation of a flow (`ConnectionTracker::update`,
lines 69-115): inter-arrival time to the previous `last_seen`, forward
counters (direction is always forward, line 77), TCP flag tallies and
state transition, then `last_seen` and `duration`. -/
def ConnectionTracker.updateFlow (flow : FlowStats) (p : ParsedPacket) : FlowStats :=
  let iat : Rat := ((p.timestamp - flow.last_seen : Int) : Rat) / 1000
  let flow := { flow with fwd_packets := flow.fwd_packets + 1,
                          fwd_bytes := flow.fwd_bytes + p.raw_length }
  let flow := if 1 < flow.fwd_packets
              then { flow with fwd_iat := flow.fwd_iat ++ [iat] }
              else flow
  let flow := { flow with fwd_pkt_lengths := flow.fwd_pkt_lengths ++ [p.raw_length] }
  let flow :=
    if p.has_tcp then
      let fl := p.tcp_header.flags
      let flow := { flow with
        syn_count := flow.syn_count + (if fl &&& 2 ≠ 0 then 1 else 0),
        ack_count := flow.ack_count + (if fl &&& 16 ≠ 0 then 1 else 0),
        fin_count := flow.fin_count + (if fl &&& 1 ≠ 0 then 1 else 0),
        rst_count := flow.rst_count + (if fl &&& 4 ≠ 0 then 1 else 0),
        psh_count := flow.psh_count + (if fl &&& 8 ≠ 0 then 1 else 0),
        urg_count := flow.urg_count + (if fl &&& 32 ≠ 0 then 1 else 0) }
      { flow with state := ConnectionTracker.update_tcp_state flow.state fl }
    else flow
  let flow := { flow with last_seen := p.timestamp }
  { flow with duration := ((p.timestamp - flow.start_time : Int) : Rat) / 1000 }

/-- `ConnectionTracker::update` (lines 34-116).  On a missing key the code
first runs `cleanup_expired` when `size >= max_connections_`, then
inserts unconditionally and falls through to the shared mutation; on a
present key only the mutation runs.  `now` is the wall clock that
`cleanup_expired` would read. -/
def ConnectionTracker.update (tr : ConnectionTracker) (now : Int) (p : ParsedPacket) : ConnectionTracker :=
  let key := ConnectionTracker.create_key p
  match tr.connections_.find? (fun e => decide (e.1 = key)) with
  | some _ =>
      { tr with connections_ :=
          (tr.connections_.map
            (fun e => if e.1 = key then (e.1, ConnectionTracker.updateFlow e.2 p) else e)) }
  | none =>
      let tr := if tr.max_connections_ ≤ tr.connections_.length
                then tr.cleanup_expired now else tr
      let flow := ConnectionTracker.updateFlow (ConnectionTracker.initFlow p) p
      { tr with connections_ := tr.connections_ ++ [(key, flow)],
                total_connections_ := tr.total_connections_ + 1 }

/-! ## Packet decoder (`packet_parser.{h,cpp}`) -/

/-- Read `data[i]`; out-of-range indices (the C++ reads past the buffer)
yield 0, standing for whatever byte happens to be there. -/
def byteAt (data : List Nat) (i : Nat) : Nat := data.getD i 0

/-- uint32 subtraction `a - b` with wrap-around (requires `b ≤ 2 ^ 32`,
true at every use site). -/
def usub32 (a b : Nat) : Nat := (a + 2 ^ 32 - b) % 2 ^ 32

/-- The three statistics members of class `PacketParser`
(`packet_parser.h` lines 56-58), all uint64 counters; no computation here
can wrap below `2 ^ 64` calls, so they are plain `Nat`. -/
structure PacketParser where
  packets_parsed_ : Nat
  parse_errors_ : Nat
  next_packet_id_ : Nat
deriving DecidableEq, Repr

/-- The constructor `PacketParser()` (`packet_parser.cpp` lines 19-23). -/
def PacketParser.init : PacketParser :=
  { packets_parsed_ := 0, parse_errors_ := 0, next_packet_id_ := 1 }

/-- The zero-initialised `ParsedPacket packet = {}` of `parse`. -/
def emptyPacket : ParsedPacket :=
  { timestamp := 0, packet_id := 0, raw_length := 0,
    eth_header := { dst_mac := [], src_mac := [], ethertype := 0 },
    ip_header := { version_ihl := 0, tos := 0, total_length := 0,
                   identification := 0, flags_fragment := 0, ttl := 0,
                   protocol := 0, checksum := 0, src_ip := 0, dst_ip := 0 },
    has_tcp := false, has_udp := false,
    tcp_header := { src_port := 0, dst_port := 0, seq_number := 0,
                    ack_number := 0, data_offset := 0, flags := 0,
                    window_size := 0, checksum := 0, urgent_pointer := 0 },
    udp_header := { src_port := 0, dst_port := 0, length := 0, checksum := 0 },
    payload := [], payload_length := 0 }

/-- `PacketParser::validate_packet` (lines 69-72): non-null data and at
least 34 bytes (a list models a non-null buffer). -/
def PacketParser.validate_packet (data : List Nat) : Bool := 34 ≤ data.length

/-- `PacketParser::parse_ethernet` (lines 86-98): copy the MACs, load the
big-endian ethertype, succeed iff it is 0x0800. -/
def PacketParser.parse_ethernet (data : List Nat) (pkt : ParsedPacket) :
    ParsedPacket × Bool :=
  if data.length < 14 then (pkt, false) else
  let pkt := { pkt with eth_header :=
    { dst_mac := data.take 6, src_mac := (data.drop 6).take 6,
      ethertype := byteAt data 12 <<< 8 ||| byteAt data 13 } }
  (pkt, pkt.eth_header.ethertype == 0x0800)

/-- `PacketParser::parse_ipv4` (lines 100-136), applied to the buffer
starting at offset 14 (`d`) with `len` bytes remaining.  `version_ihl` is
stored before the version check; the remaining fields only after it.
The two addresses are `memcpy`ed, i.e. the four buffer bytes in memory
order, read back as a little-endian uint32. -/
def PacketParser.parse_ipv4 (d : List Nat) (len : Nat) (pkt : ParsedPacket) :
    ParsedPacket × Bool :=
  if len < 20 then (pkt, false) else
  let pkt := { pkt with ip_header := { pkt.ip_header with version_ihl := byteAt d 0 } }
  if (byteAt d 0 >>> 4) &&& 0x0F ≠ 4 then (pkt, false) else
  let pkt := { pkt with ip_header :=
    { version_ihl := byteAt d 0, tos := byteAt d 1,
      total_length := byteAt d 2 <<< 8 ||| byteAt d 3,
      identification := byteAt d 4 <<< 8 ||| byteAt d 5,
      flags_fragment := byteAt d 6 <<< 8 ||| byteAt d 7,
      ttl := byteAt d 8, protocol := byteAt d 9,
      checksum := byteAt d 10 <<< 8 ||| byteAt d 11,
      src_ip := byteAt d 12 + byteAt d 13 * 2 ^ 8 + byteAt d 14 * 2 ^ 16
                  + byteAt d 15 * 2 ^ 24,
      dst_ip := byteAt d 16 + byteAt d 17 * 2 ^ 8 + byteAt d 18 * 2 ^ 16
                  + byteAt d 19 * 2 ^ 24 } }
  (pkt, true)

/-- `PacketParser::parse_tcp` (lines 138-181), reading at byte offset
`ofs` of the original buffer (the C++ receives the pointer `data + ofs`)
with the uint32 `len` bytes it was told remain. -/
def PacketParser.parse_tcp (data : List Nat) (ofs : Nat) (len : Nat)
    (pkt : ParsedPacket) : ParsedPacket × Bool :=
  if len < 20 then (pkt, false) else
  let b := fun i => byteAt data (ofs + i)
  let pkt := { pkt with tcp_header :=
    { src_port := b 0 <<< 8 ||| b 1, dst_port := b 2 <<< 8 ||| b 3,
      seq_number := b 4 <<< 24 ||| b 5 <<< 16 ||| b 6 <<< 8 ||| b 7,
      ack_number := b 8 <<< 24 ||| b 9 <<< 16 ||| b 10 <<< 8 ||| b 11,
      data_offset := (b 12 >>> 4) &&& 0x0F, flags := b 13 &&& 0x3F,
      window_size := b 14 <<< 8 ||| b 15, checksum := b 16 <<< 8 ||| b 17,
      urgent_pointer := b 18 <<< 8 ||| b 19 } }
  let tcp_header_length := pkt.tcp_header.data_offset * 4
  let pkt :=
    if tcp_header_length < len then
      { pkt with payload := ((data.drop (ofs + tcp_header_length)).take (len - tcp_header_length)),
                 payload_length := len - tcp_header_length }
    else
      { pkt with payload := [], payload_length := 0 }
  (pkt, true)

/-- `PacketParser::parse_udp` (lines 183-208), conventions as
`parse_tcp`. -/
def PacketParser.parse_udp (data : List Nat) (ofs : Nat) (len : Nat)
    (pkt : ParsedPacket) : ParsedPacket × Bool :=
  if len < 8 then (pkt, false) else
  let b := fun i => byteAt data (ofs + i)
  let pkt := { pkt with udp_header :=
    { src_port := b 0 <<< 8 ||| b 1, dst_port := b 2 <<< 8 ||| b 3,
      length := b 4 <<< 8 ||| b 5, checksum := b 6 <<< 8 ||| b 7 } }
  let pkt :=
    if 8 < len then
      { pkt with payload := ((data.drop (ofs + 8)).take (len - 8)),
                 payload_length := len - 8 }
    else
      { pkt with payload := [], payload_length := 0 }
  (pkt, true)

/-- `PacketParser::parse` (lines 25-67).  The transport length is the
uint32 expression `length - 14 - ip_header_length`, which wraps when
`ip_header_length` exceeds `length - 14` (the code never checks the IHL
nibble). -/
def PacketParser.parse (s : PacketParser) (data : List Nat) (timestamp : Int) :
    ParsedPacket × PacketParser :=
  let pkt := { emptyPacket with timestamp := timestamp,
                                packet_id := s.next_packet_id_,
                                raw_length := data.length }
  let s := { s with next_packet_id_ := s.next_packet_id_ + 1 }
  if !PacketParser.validate_packet data then
    (pkt, { s with parse_errors_ := s.parse_errors_ + 1 })
  else
    let e := PacketParser.parse_ethernet data pkt
    if !e.2 then (e.1, { s with parse_errors_ := s.parse_errors_ + 1 })
    else
      let i := PacketParser.parse_ipv4 (data.drop 14) (data.length - 14) e.1
      if !i.2 then (i.1, { s with parse_errors_ := s.parse_errors_ + 1 })
      else
        let ip_header_length := (i.1.ip_header.version_ihl &&& 0x0F) * 4
        let transport_length := usub32 (data.length - 14) ip_header_length
        let pkt :=
          if i.1.ip_header.protocol == 6 then
            let t := PacketParser.parse_tcp data (14 + ip_header_length) transport_length i.1
            if t.2 then { t.1 with has_tcp := true } else t.1
          else if i.1.ip_header.protocol == 17 then
            let u := PacketParser.parse_udp data (14 + ip_header_length) transport_length i.1
            if u.2 then { u.1 with has_udp := true } else u.1
          else i.1
        (pkt, { s with packets_parsed_ := s.packets_parsed_ + 1 })

/-- A run of the decoder: `parse` on each input in order, threading the
counter state. -/
def PacketParser.parseRun (s : PacketParser) :
    List (List Nat × Int) → List ParsedPacket × PacketParser
  | [] => ([], s)
  | (d, t) :: rest =>
    ((PacketParser.parse s d t).1
       :: (PacketParser.parseRun (PacketParser.parse s d t).2 rest).1,
     (PacketParser.parseRun (PacketParser.parse s d t).2 rest).2)

/-! ## Rule engine (`rule_engine.{h,cpp}`) -/

/-- A `src_ip_filter` / `dst_ip_filter` string.  The code only ever
compares the string against `"any"` and against the packet's dotted-quad
rendering; dotted-quad rendering is injective on 32-bit values, so a
filter is observably either `any` or an exact 32-bit address (a string
that is neither compares unequal to every rendering, i.e. behaves as an
unmatchable exact address, which `exact` with an impossible value also
models). -/
inductive IpFilter where
  | any
  | exact (ip : Nat)
deriving DecidableEq, Repr

/-- `SignatureRule` of `types.h`; strings carried verbatim are byte
lists. -/
structure SignatureRule where
  rule_id : Nat
  name : List Nat
  description : List Nat
  protocol : Protocol
  src_ip_filter : IpFilter
  dst_ip_filter : IpFilter
  src_ports : List Nat
  dst_ports : List Nat
  tcp_flags_mask : Nat
  tcp_flags_value : Nat
  content_patterns : List (List Nat)
  regex_patterns : List (List Nat)
  severity : Severity
  action : List Nat
  enabled : Bool
deriving DecidableEq, Repr

/-- `Alert` of `types.h` (addresses kept as raw 32-bit values, protocol
as the bytes of "TCP"/"UDP"/"OTHER"; both renderings are injective). -/
structure Alert where
  alert_id : Nat
  timestamp : Int
  rule_id : Nat
  rule_name : List Nat
  severity : Severity
  packet_id : Nat
  src_ip : Nat
  dst_ip : Nat
  src_port : Nat
  dst_port : Nat
  protocol : List Nat
  description : List Nat
  matched_content : List Nat
deriving DecidableEq, Repr

/-- The members of class `RuleEngine` (constructor at
`rule_engine.cpp` lines 18-23). -/
structure RuleEngine where
  rules_ : List SignatureRule
  packets_evaluated_ : Nat
  alerts_generated_ : Nat
  rule_matches_ : Nat
  next_alert_id_ : Nat
deriving DecidableEq, Repr

/-- `::tolower` in the C locale on a payload byte. -/
def toLowerByte (b : Nat) : Nat := if 65 ≤ b ∧ b ≤ 90 then b + 32 else b

/-- `std::string::find` as a Bool: does `needle` occur contiguously in
the haystack (the empty needle is found at position 0). -/
def containsSeq (needle : List Nat) : List Nat → Bool
  | [] => needle.isEmpty
  | a :: t => needle.isPrefixOf (a :: t) || containsSeq needle t

/-- `RuleEngine::match_ip_filter` (lines 215-221); CIDR matching is a
TODO in the source, so only `"any"` and exact equality match. -/
def RuleEngine.match_ip_filter (ip : Nat) (filter : IpFilter) : Bool :=
  match filter with
  | .any => true
  | .exact v => v == ip

/-- `RuleEngine::match_port` (lines 223-226). -/
def RuleEngine.match_port (port : Nat) (port_list : List Nat) : Bool :=
  port_list.isEmpty || port_list.contains port

/-- `RuleEngine::match_tcp_flags` (lines 228-230). -/
def RuleEngine.match_tcp_flags (packet_flags mask value : Nat) : Bool :=
  (packet_flags &&& mask) == value

/-- `RuleEngine::match_content` (lines 232-257): scan the first
`min(payload_len, 1024)` payload bytes, lower-cased, for any lower-cased
literal pattern. -/
def RuleEngine.match_content (payload : List Nat) (payload_len : Nat)
    (patterns : List (List Nat)) : Bool :=
  if patterns.isEmpty || payload.isEmpty || payload_len == 0 then false
  else
    let payload_str := (payload.take (min payload_len 1024)).map toLowerByte
    patterns.any (fun pat => containsSeq (pat.map toLowerByte) payload_str)

/-- `RuleEngine::match_regex` (lines 259-291) for patterns made of
ordinary (non-metacharacter) ASCII characters: `std::regex_search` with
`std::regex::icase` on such a pattern is exactly a case-insensitive
substring search over the first `min(payload_len, 1024)` payload bytes;
the regex cache changes nothing observable.  This function is **never
called by `RuleEngine::evaluate`** in the source; it is embedded here
only so the regex sentence of the specification can be stated. -/
def RuleEngine.match_regex (payload : List Nat) (payload_len : Nat)
    (patterns : List (List Nat)) : Bool :=
  if patterns.isEmpty || payload.isEmpty || payload_len == 0 then false
  else
    let payload_str := payload.take (min payload_len 1024)
    patterns.any (fun pat => containsSeq (pat.map toLowerByte) (payload_str.map toLowerByte))

/-- The predicate chain of `RuleEngine::evaluate` (lines 144-204) for one
rule: each `continue` of the loop body becomes a `false` branch.  Note
the chain ends after the content patterns — the source never consults
`regex_patterns`. -/
def RuleEngine.ruleMatches (r : SignatureRule) (p : ParsedPacket) : Bool :=
  if r.protocol == Protocol.TCP && !p.has_tcp then false
  else if r.protocol == Protocol.UDP && !p.has_udp then false
  else if r.src_ip_filter != IpFilter.any
          && !RuleEngine.match_ip_filter p.get_src_ip r.src_ip_filter then false
  else if r.dst_ip_filter != IpFilter.any
          && !RuleEngine.match_ip_filter p.get_dst_ip r.dst_ip_filter then false
  else if !r.src_ports.isEmpty && !RuleEngine.match_port p.get_src_port r.src_ports then false
  else if !r.dst_ports.isEmpty && !RuleEngine.match_port p.get_dst_port r.dst_ports then false
  else if p.has_tcp && r.tcp_flags_mask != 0
          && !RuleEngine.match_tcp_flags p.tcp_header.flags r.tcp_flags_mask r.tcp_flags_value
       then false
  else if !r.content_patterns.isEmpty then
    if !p.payload.isEmpty && p.payload_length != 0 then
      RuleEngine.match_content p.payload p.payload_length r.content_patterns
    else false
  else true

/-- The `matched_content` computed by the loop (lines 186-204): when the
content step was the discriminator, the first single pattern that
matches; otherwise the empty string. -/
def RuleEngine.matchedContentOf (r : SignatureRule) (p : ParsedPacket) : List Nat :=
  if !r.content_patterns.isEmpty && (!p.payload.isEmpty && p.payload_length != 0) then
    (r.content_patterns.find?
      (fun pat => RuleEngine.match_content p.payload p.payload_length [pat])).getD []
  else []

/-- `RuleEngine::create_alert` (lines 293-314), with the alert id passed
explicitly (the C++ reads and increments the member
`next_alert_id_`). -/
def RuleEngine.create_alert (alert_id : Nat) (r : SignatureRule) (p : ParsedPacket) :
    Alert :=
  { alert_id := alert_id, timestamp := p.timestamp, rule_id := r.rule_id,
    rule_name := r.name, severity := r.severity, packet_id := p.packet_id,
    src_ip := p.get_src_ip, dst_ip := p.get_dst_ip,
    src_port := p.get_src_port, dst_port := p.get_dst_port,
    protocol := p.get_protocol, description := r.description,
    matched_content := RuleEngine.matchedContentOf r p }

/-- The rule loop of `RuleEngine::evaluate` (lines 141-209): skip
disabled rules, run the predicate chain, emit an alert with the next
ascending id on a full match. -/
def RuleEngine.evalLoop (p : ParsedPacket) :
    List SignatureRule → Nat → List Alert × Nat
  | [], n => ([], n)
  | r :: rest, n =>
    if r.enabled && RuleEngine.ruleMatches r p then
      (RuleEngine.create_alert n r p :: (RuleEngine.evalLoop p rest (n + 1)).1,
       (RuleEngine.evalLoop p rest (n + 1)).2)
    else RuleEngine.evalLoop p rest n

/-- `RuleEngine::evaluate` (lines 135-213). -/
def RuleEngine.evaluate (e : RuleEngine) (p : ParsedPacket) :
    List Alert × RuleEngine :=
  let alerts := (RuleEngine.evalLoop p e.rules_ e.next_alert_id_).1
  (alerts,
   { e with packets_evaluated_ := e.packets_evaluated_ + 1,
            rule_matches_ := e.rule_matches_ + alerts.length,
            alerts_generated_ := e.alerts_generated_ + alerts.length,
            next_alert_id_ := (RuleEngine.evalLoop p e.rules_ e.next_alert_id_).2 })

/-- A run of the engine over a packet stream: evaluate each packet in
order, concatenating the emitted alerts. -/
def RuleEngine.engineRun (e : RuleEngine) :
    List ParsedPacket → List Alert × RuleEngine
  | [] => ([], e)
  | p :: rest =>
    ((RuleEngine.evaluate e p).1 ++ (RuleEngine.engineRun (RuleEngine.evaluate e p).2 rest).1,
     (RuleEngine.engineRun (RuleEngine.evaluate e p).2 rest).2)

/-! ## Feature extractor (`feature_extractor.cpp`, namespace
`nids::features`)

Only the fragment of `FeatureExtractor::extract` that the claims touch is
embedded: the segment-size features (lines 145-156) and the bulk-transfer
features (lines 202-222).  Every other output field is computed from
inputs that do not feed these (several need `std::sqrt` and are not
exactly representable); none of them is read by the bulk fragment. -/

/-- The fields of the `nids::features` flow record that the embedded
fragment of `extract` reads. -/
structure FlowAgg where
  duration : Rat
  fwd_packets : Nat
  fwd_bytes : Nat
  bwd_packets : Nat
  bwd_bytes : Nat
deriving DecidableEq, Repr

/-- The outputs of the embedded fragment of `extract`. -/
structure BulkFeatures where
  avg_fwd_segment_size : Rat
  avg_bwd_segment_size : Rat
  fwd_bulk_rate_avg : Rat
  fwd_bulk_size_avg : Rat
  fwd_bulk_packets_avg : Rat
  bwd_bulk_rate_avg : Rat
  bwd_bulk_size_avg : Rat
  bwd_bulk_packets_avg : Rat
deriving DecidableEq, Repr

/-- `FeatureExtractor::extract`, segment-size and bulk fragment
(lines 145-156 and 202-222): the six bulk outputs are first set to 0 and
then overwritten under `fwd_packets >= 4 && duration > 0` (resp. the
backward pair). -/
def FeatureExtractor.extract (flow : FlowAgg) : BulkFeatures :=
  let avg_fwd_segment_size : Rat :=
    if 0 < flow.fwd_packets then (flow.fwd_bytes : Rat) / (flow.fwd_packets : Rat) else 0
  let avg_bwd_segment_size : Rat :=
    if 0 < flow.bwd_packets then (flow.bwd_bytes : Rat) / (flow.bwd_packets : Rat) else 0
  let f : BulkFeatures :=
    { avg_fwd_segment_size := avg_fwd_segment_size,
      avg_bwd_segment_size := avg_bwd_segment_size,
      fwd_bulk_rate_avg := 0, fwd_bulk_size_avg := 0, fwd_bulk_packets_avg := 0,
      bwd_bulk_rate_avg := 0, bwd_bulk_size_avg := 0, bwd_bulk_packets_avg := 0 }
  let f :=
    if 4 ≤ flow.fwd_packets ∧ 0 < flow.duration then
      { f with fwd_bulk_rate_avg := (flow.fwd_bytes : Rat) / flow.duration,
               fwd_bulk_size_avg := f.avg_fwd_segment_size,
               fwd_bulk_packets_avg := (flow.fwd_packets : Rat) / 4 }
    else f
  if 4 ≤ flow.bwd_packets ∧ 0 < flow.duration then
    { f with bwd_bulk_rate_avg := (flow.bwd_bytes : Rat) / flow.duration,
             bwd_bulk_size_avg := f.avg_bwd_segment_size,
             bwd_bulk_packets_avg := (flow.bwd_packets : Rat) / 4 }
  else f

/-! ## Spec-side definitions

These few definitions transcribe sentences of the specification (not the
code) so that code-versus-spec refinement statements can be made; each is
named `spec...`. -/

/-- The TCP state-transition table of the specification (§4.2 step 7),
rows tried in the order written, first matching row wins, no row leaves
the state unchanged.  The flag bits are SYN = 0x02, ACK = 0x10,
FIN = 0x01, RST = 0x04. -/
def specTcpTransition (s : ConnectionState) (flags : Nat) : ConnectionState :=
  if s = ConnectionState.UNKNOWN ∧ flags &&& 2 ≠ 0 ∧ ¬flags &&& 16 ≠ 0 then .SYN_SENT
  else if s = ConnectionState.SYN_SENT ∧ flags &&& 2 ≠ 0 ∧ flags &&& 16 ≠ 0 then .SYN_RECEIVED
  else if s = ConnectionState.SYN_RECEIVED ∧ flags &&& 16 ≠ 0 then .ESTABLISHED
  else if s = ConnectionState.ESTABLISHED ∧ flags &&& 1 ≠ 0 then .FIN_WAIT
  else if s = ConnectionState.ESTABLISHED ∧ flags &&& 4 ≠ 0 then .CLOSED
  else if s = ConnectionState.FIN_WAIT ∧ (flags &&& 1 ≠ 0 ∨ flags &&& 4 ≠ 0) then .CLOSED
  else s

/-- The per-rule predicate as the specification's matching-order sentence
describes it, **minus the regex step**: protocol compatibility, IP
filters, port lists, TCP flag predicate, at-least-one content substring,
as one conjunction (`match_ip_filter` already accepts `any` and
`match_port` already accepts the empty list, exactly as the source's
outer guards do). -/
def specRulePredicate (r : SignatureRule) (p : ParsedPacket) : Bool :=
  (!(r.protocol == Protocol.TCP) || p.has_tcp)
  && (!(r.protocol == Protocol.UDP) || p.has_udp)
  && RuleEngine.match_ip_filter p.get_src_ip r.src_ip_filter
  && RuleEngine.match_ip_filter p.get_dst_ip r.dst_ip_filter
  && RuleEngine.match_port p.get_src_port r.src_ports
  && RuleEngine.match_port p.get_dst_port r.dst_ports
  && (!(p.has_tcp && r.tcp_flags_mask != 0)
      || RuleEngine.match_tcp_flags p.tcp_header.flags r.tcp_flags_mask r.tcp_flags_value)
  && (r.content_patterns.isEmpty
      || (!p.payload.isEmpty && p.payload_length != 0
          && RuleEngine.match_content p.payload p.payload_length r.content_patterns))

/-- The three rejection conditions of the decoder as the specification
states them: too short, ethertype not IPv4, IP version nibble not 4. -/
def specParseFails (data : List Nat) : Prop :=
  data.length < 34
  ∨ byteAt data 12 <<< 8 ||| byteAt data 13 ≠ 0x0800
  ∨ (byteAt data 14 >>> 4) &&& 0x0F ≠ 4

/-! ## Derived run helpers -/

/-- The rules of a list that `RuleEngine::evaluate` matches against a
packet, in list (insertion) order. -/
def RuleEngine.matchedRules (p : ParsedPacket) (rs : List SignatureRule) :
    List SignatureRule :=
  rs.filter (fun r => r.enabled && RuleEngine.ruleMatches r p)

/-- Feed a list of (wall clock, packet) pairs through
`ConnectionTracker::update`. -/
def ConnectionTracker.processEntries (tr : ConnectionTracker)
    (entries : List (Int × ParsedPacket)) : ConnectionTracker :=
  entries.foldl (fun tr e => tr.update e.1 e.2) tr

/-- The per-flow bookkeeping invariant maintained by
`ConnectionTracker::update` for a flow that has absorbed at least one
packet (all packets land in the forward direction, so the backward
aggregates stay empty). -/
def flowInvariant (f : FlowStats) : Prop :=
  1 ≤ f.fwd_packets
  ∧ f.fwd_packets = f.fwd_pkt_lengths.length
  ∧ f.fwd_iat.length = f.fwd_packets - 1
  ∧ f.start_time ≤ f.last_seen
  ∧ f.duration = ((f.last_seen - f.start_time : Int) : Rat) / 1000
  ∧ f.bwd_packets = 0 ∧ f.bwd_bytes = 0 ∧ f.bwd_iat = [] ∧ f.bwd_pkt_lengths = []

/-! ## Concrete instances used by the counterexamples and witnesses -/

/-- An ICMP packet from address 1 (for the admission-bound run). -/
def probeA : ParsedPacket :=
  { emptyPacket with
    timestamp := 0, raw_length := 60,
    ip_header := { emptyPacket.ip_header with src_ip := 1, dst_ip := 2, protocol := 1 } }

/-- As `probeA` but from address 3, a distinct 5-tuple. -/
def probeB : ParsedPacket :=
  { probeA with ip_header := { probeA.ip_header with src_ip := 3 } }

/-- A 34-byte Ethernet/IPv4/TCP frame whose IHL nibble is 15
(`version_ihl = 0x4F`, protocol 6): minimal length, maximal claimed IP
header length. -/
def frameIhl15 : List Nat :=
  List.replicate 12 0 ++ [8, 0] ++ [0x4F] ++ List.replicate 8 0 ++ [6]
    ++ List.replicate 10 0

/-- A 34-byte frame whose IHL nibble is 0 (`version_ihl = 0x40`,
protocol 6): claimed IP header length 0 < 20. -/
def frameIhl0 : List Nat :=
  List.replicate 12 0 ++ [8, 0] ++ [0x40] ++ List.replicate 8 0 ++ [6]
    ++ List.replicate 10 0

/-- A 20-byte truncated frame. -/
def frameShort : List Nat := List.replicate 20 0

/-- A valid minimal TCP frame: version 4, IHL 5, protocol 6, 54 bytes. -/
def frameOk : List Nat :=
  List.replicate 12 0 ++ [8, 0] ++ [0x45] ++ List.replicate 8 0 ++ [6]
    ++ List.replicate 10 0 ++ List.replicate 20 0

/-- An enabled TCP rule whose only pattern list is a regex list
(the bytes of "zzz"); every other predicate accepts everything. -/
def regexRule : SignatureRule :=
  { rule_id := 2001, name := [], description := [], protocol := Protocol.TCP,
    src_ip_filter := IpFilter.any, dst_ip_filter := IpFilter.any,
    src_ports := [], dst_ports := [], tcp_flags_mask := 0, tcp_flags_value := 0,
    content_patterns := [], regex_patterns := [[122, 122, 122]],
    severity := Severity.HIGH, action := [], enabled := true }

/-- A TCP packet whose payload is the bytes of "GET" — no "z" anywhere. -/
def regexPacket : ParsedPacket :=
  { emptyPacket with has_tcp := true, payload := [71, 69, 84], payload_length := 3 }

/-- An engine holding only `regexRule`, ids starting at 1 as the
constructor sets them. -/
def regexEngine : RuleEngine :=
  { rules_ := [regexRule], packets_evaluated_ := 0, alerts_generated_ := 0,
    rule_matches_ := 0, next_alert_id_ := 1 }

/-- `probeA` stamped at 5000 ms. -/
def latePacket : ParsedPacket := { probeA with timestamp := 5000 }

/-- The same 5-tuple stamped earlier, at 3000 ms. -/
def earlyPacket : ParsedPacket := { probeA with timestamp := 3000 }

/-- A flow record with 4 forward packets over 2 seconds (for the bulk
feature witness). -/
def bulkFlow : FlowAgg :=
  { duration := 2, fwd_packets := 4, fwd_bytes := 600, bwd_packets := 1, bwd_bytes := 40 }

end HybridIds

namespace HybridIds

/-! # Theorems -/

/-- **C1.**  The admission bound is violated by the code: with
`max_connections = 1`, inserting two distinct non-expiring 5-tuples
(both at time 0, wall clock 0, timeout 120 s, neither `CLOSED`) leaves
the flow table at size 2.  `ConnectionTracker::update` runs
`cleanup_expired` when the table is full but then inserts
unconditionally — the "if still full, reject" step of the claim does not
exist in the code. -/
theorem C1_admission_bound_violated :
    ((((ConnectionTracker.init 120 1).update 0 probeA).update 0 probeB).connections_.length = 2
      ∧ ¬(((ConnectionTracker.init 120 1).update 0 probeA).update 0 probeB).connections_.length
          ≤ (ConnectionTracker.init 120 1).max_connections_)
    ∧ ConnectionTracker.create_key probeA ≠ ConnectionTracker.create_key probeB
    ∧ (((ConnectionTracker.init 120 1).update 0 probeA).connections_.all
        (fun e => !((ConnectionTracker.init 120 1).is_expired 0 e.2))) = true := by
  decide

/-- **C3.**  The decoder neither requires `IHL × 4 ≥ 20` nor stays inside
the buffer.  On a 34-byte frame with IHL = 15 the uint32 transport length
underflows to `2 ^ 32 - 40`, the TCP branch accepts it (`has_tcp` is set,
reading header bytes at offsets 74…93 of a 34-byte buffer) and the stored
payload length is `2 ^ 32 - 40`; on a frame with IHL = 0 the decoder
accepts an IP header length of 0 < 20. -/
theorem C3_ihl_unchecked_and_transport_underflow :
    (((PacketParser.init.parse frameIhl15 0).1.has_tcp = true
       ∧ (PacketParser.init.parse frameIhl15 0).1.payload_length = 2 ^ 32 - 40
       ∧ frameIhl15.length = 34
       ∧ frameIhl15.length
           < 14 + (((PacketParser.init.parse frameIhl15 0).1.ip_header.version_ihl &&& 0x0F) * 4))
      ∧ usub32 (frameIhl15.length - 14) 60 = 2 ^ 32 - 40)
    ∧ ((PacketParser.init.parse frameIhl0 0).1.has_tcp = true
       ∧ (((PacketParser.init.parse frameIhl0 0).1.ip_header.version_ihl &&& 0x0F) * 4) < 20) := by
  decide

/-- **C2, counterexample.**  A rule whose `regex_patterns` list is
non-empty (the bytes of "zzz") and matches nothing in the payload (the
bytes of "GET") still produces an alert: `RuleEngine::evaluate` never
consults the regex patterns. -/
theorem C2_cex_alert_without_regex_match :
    regexRule.regex_patterns ≠ []
    ∧ (regexEngine.evaluate regexPacket).1.length = 1
    ∧ RuleEngine.match_regex regexPacket.payload regexPacket.payload_length
        regexRule.regex_patterns = false := by
  decide

/-- **C7.**  `cleanup_expired` keeps exactly the entries that are neither
older (in whole seconds from `last_seen` to the wall clock) than the
timeout nor `CLOSED`: membership in the cleaned table is equivalent to
prior membership plus not-expired. -/
theorem C7_expiry_removes_exactly_expired :
    ∀ (tr : ConnectionTracker) (now : Int) (e : ConnectionKey × FlowStats),
      e ∈ (tr.cleanup_expired now).connections_ ↔
        (e ∈ tr.connections_
         ∧ ¬((tr.timeout_seconds_ : Int) < Int.tdiv (now - e.2.last_seen) 1000
              ∨ e.2.state = ConnectionState.CLOSED)) := by
  intro tr now e
  simp [ConnectionTracker.cleanup_expired, ConnectionTracker.is_expired,
    List.mem_filter]

/-- **C9.**  The bulk-transfer heuristic: under
`fwd_packets ≥ 4 ∧ duration > 0` the forward bulk outputs are
`fwd_bytes / duration`, the average forward segment size, and
`fwd_packets / 4`; otherwise all three are 0 — and symmetrically for the
backward direction. -/
theorem C9_bulk_feature_heuristic :
    ∀ flow : FlowAgg,
      ((4 ≤ flow.fwd_packets ∧ 0 < flow.duration →
          (FeatureExtractor.extract flow).fwd_bulk_rate_avg = (flow.fwd_bytes : Rat) / flow.duration
          ∧ (FeatureExtractor.extract flow).fwd_bulk_size_avg
              = (FeatureExtractor.extract flow).avg_fwd_segment_size
          ∧ (FeatureExtractor.extract flow).fwd_bulk_packets_avg = (flow.fwd_packets : Rat) / 4)
        ∧ (¬(4 ≤ flow.fwd_packets ∧ 0 < flow.duration) →
          (FeatureExtractor.extract flow).fwd_bulk_rate_avg = 0
          ∧ (FeatureExtractor.extract flow).fwd_bulk_size_avg = 0
          ∧ (FeatureExtractor.extract flow).fwd_bulk_packets_avg = 0))
      ∧ ((4 ≤ flow.bwd_packets ∧ 0 < flow.duration →
          (FeatureExtractor.extract flow).bwd_bulk_rate_avg = (flow.bwd_bytes : Rat) / flow.duration
          ∧ (FeatureExtractor.extract flow).bwd_bulk_size_avg
              = (FeatureExtractor.extract flow).avg_bwd_segment_size
          ∧ (FeatureExtractor.extract flow).bwd_bulk_packets_avg = (flow.bwd_packets : Rat) / 4)
        ∧ (¬(4 ≤ flow.bwd_packets ∧ 0 < flow.duration) →
          (FeatureExtractor.extract flow).bwd_bulk_rate_avg = 0
          ∧ (FeatureExtractor.extract flow).bwd_bulk_size_avg = 0
          ∧ (FeatureExtractor.extract flow).bwd_bulk_packets_avg = 0)) := by
  intro flow
  simp only [FeatureExtractor.extract]
  split_ifs with h1 h2 h2 <;> simp_all

/-- **C9, witness.**  The bulk theorem applied to a flow with 4 forward
packets, 600 forward bytes, 2 s duration and 1 backward packet. -/
theorem C9_bulk_feature_heuristic_witness :
    ((FeatureExtractor.extract bulkFlow).fwd_bulk_rate_avg = (bulkFlow.fwd_bytes : Rat) / bulkFlow.duration
      ∧ (FeatureExtractor.extract bulkFlow).fwd_bulk_size_avg
          = (FeatureExtractor.extract bulkFlow).avg_fwd_segment_size
      ∧ (FeatureExtractor.extract bulkFlow).fwd_bulk_packets_avg = (bulkFlow.fwd_packets : Rat) / 4)
    ∧ ((FeatureExtractor.extract bulkFlow).bwd_bulk_rate_avg = 0
      ∧ (FeatureExtractor.extract bulkFlow).bwd_bulk_size_avg = 0
      ∧ (FeatureExtractor.extract bulkFlow).bwd_bulk_packets_avg = 0) :=
  ⟨(C9_bulk_feature_heuristic bulkFlow).1.1 (by decide),
   (C9_bulk_feature_heuristic bulkFlow).2.2 (by decide)⟩

/-- **C6.**  `update_tcp_state` coincides with the specification's
transition table (rows tried in order, first match wins, all other flag
combinations leave the state unchanged — in particular `CLOSED` is
terminal); the state machine is only driven by TCP packets, so a non-TCP
packet leaves a flow's state unchanged and a fresh flow starts in
`UNKNOWN`. -/
theorem C6_tcp_state_machine :
    (∀ (s : ConnectionState) (flags : Nat),
        ConnectionTracker.update_tcp_state s flags = specTcpTransition s flags)
    ∧ (∀ flags : Nat,
        ConnectionTracker.update_tcp_state ConnectionState.CLOSED flags = ConnectionState.CLOSED)
    ∧ (∀ (f : FlowStats) (p : ParsedPacket), p.has_tcp = false →
        (ConnectionTracker.updateFlow f p).state = f.state)
    ∧ (∀ p : ParsedPacket, (ConnectionTracker.initFlow p).state = ConnectionState.UNKNOWN) := by
  refine ⟨?_, ?_, ?_, ?_⟩
  · intro s flags
    by_cases h2 : flags &&& 2 ≠ 0 <;> by_cases h16 : flags &&& 16 ≠ 0
      <;> by_cases h1 : flags &&& 1 ≠ 0 <;> by_cases h4 : flags &&& 4 ≠ 0
      <;> cases s
      <;> simp [ConnectionTracker.update_tcp_state, specTcpTransition, h1, h2, h4, h16]
  · intro flags
    simp [ConnectionTracker.update_tcp_state]
  · intro f p h
    simp only [ConnectionTracker.updateFlow, h, Bool.false_eq_true, if_false]
    split <;> rfl
  · intro p
    simp [ConnectionTracker.initFlow]

/-- **C6, witness.**  The non-TCP conjunct applied to a concrete flow and
a concrete non-TCP packet, with the other conjuncts instantiated at
concrete arguments. -/
theorem C6_tcp_state_machine_witness :
    ConnectionTracker.update_tcp_state ConnectionState.UNKNOWN 2 = specTcpTransition ConnectionState.UNKNOWN 2
    ∧ (ConnectionTracker.updateFlow (ConnectionTracker.initFlow probeA) probeA).state
        = (ConnectionTracker.initFlow probeA).state
    ∧ (ConnectionTracker.initFlow probeA).state = ConnectionState.UNKNOWN :=
  ⟨C6_tcp_state_machine.1 ConnectionState.UNKNOWN 2,
   C6_tcp_state_machine.2.2.1 (ConnectionTracker.initFlow probeA) probeA (by decide),
   C6_tcp_state_machine.2.2.2 probeA⟩

set_option maxHeartbeats 4000000 in
set_option maxRecDepth 100000 in
/-- Helper: the per-rule predicate chain of the loop coincides with the
one-conjunction form. -/
theorem ruleMatches_eq_specRulePredicate (r : SignatureRule) (p : ParsedPacket) :
    RuleEngine.ruleMatches r p = specRulePredicate r p := by
  unfold RuleEngine.ruleMatches specRulePredicate
  cases hsf : r.src_ip_filter <;> cases hdf : r.dst_ip_filter <;>
    split_ifs with h1 h2 h3 h4 h5 h6 h7 h8 h9 <;>
      rcases Bool.eq_false_or_eq_true p.has_tcp with hb | hb <;>
        rw [Bool.eq_iff_iff] <;>
        simp_all [RuleEngine.match_ip_filter, RuleEngine.match_port] <;>
        tauto

/-- Helper: `ruleMatches` never reads `regex_patterns`. -/
theorem ruleMatches_regex_free (r : SignatureRule) (p : ParsedPacket)
    (rps : List (List Nat)) :
    RuleEngine.ruleMatches { r with regex_patterns := rps } p = RuleEngine.ruleMatches r p := by
  simp [RuleEngine.ruleMatches]

/-- Helper: final id counter of the rule loop. -/
theorem evalLoop_snd_eq (p : ParsedPacket) :
    ∀ (rs : List SignatureRule) (n : Nat),
      (RuleEngine.evalLoop p rs n).2 = n + (RuleEngine.matchedRules p rs).length := by
  intro rs
  induction rs with
  | nil => intro n; simp [RuleEngine.evalLoop, RuleEngine.matchedRules]
  | cons r rest ih =>
    intro n
    by_cases h : (r.enabled && RuleEngine.ruleMatches r p) = true <;>
      simp [RuleEngine.evalLoop, RuleEngine.matchedRules, h, ih, List.filter_cons] <;> omega

/-- Helper: the alert ids emitted by the rule loop are consecutive from
the starting counter. -/
theorem evalLoop_alert_ids (p : ParsedPacket) :
    ∀ (rs : List SignatureRule) (n : Nat),
      ((RuleEngine.evalLoop p rs n).1.map (fun a => a.alert_id))
        = List.range' n (RuleEngine.matchedRules p rs).length := by
  intro rs
  induction rs with
  | nil => intro n; simp [RuleEngine.evalLoop, RuleEngine.matchedRules]
  | cons r rest ih =>
    intro n
    by_cases h : (r.enabled && RuleEngine.ruleMatches r p) = true <;>
      simp [RuleEngine.evalLoop, RuleEngine.matchedRules, h, ih, List.filter_cons,
        RuleEngine.create_alert, List.range'_succ]

/-- Helper: the rule ids of the emitted alerts are the matching rules'
ids, in rule-list order. -/
theorem evalLoop_rule_ids (p : ParsedPacket) :
    ∀ (rs : List SignatureRule) (n : Nat),
      ((RuleEngine.evalLoop p rs n).1.map (fun a => a.rule_id))
        = (RuleEngine.matchedRules p rs).map (fun r => r.rule_id) := by
  intro rs
  induction rs with
  | nil => intro n; simp [RuleEngine.evalLoop, RuleEngine.matchedRules]
  | cons r rest ih =>
    intro n
    by_cases h : (r.enabled && RuleEngine.ruleMatches r p) = true <;>
      simp [RuleEngine.evalLoop, RuleEngine.matchedRules, h, ih, List.filter_cons,
        RuleEngine.create_alert]

/-- Helper: dropping the disabled rules changes nothing the loop emits. -/
theorem evalLoop_filter_enabled (p : ParsedPacket) :
    ∀ (rs : List SignatureRule) (n : Nat),
      RuleEngine.evalLoop p (rs.filter (fun r => r.enabled)) n
        = RuleEngine.evalLoop p rs n := by
  intro rs
  induction rs with
  | nil => intro n; simp [RuleEngine.evalLoop]
  | cons r rest ih =>
    intro n
    by_cases he : r.enabled = true <;>
      simp [RuleEngine.evalLoop, List.filter_cons, he, ih]

/-- Helper: the alert ids of a whole run are consecutive from the
engine's starting counter, and the counter advances by the number of
alerts. -/
theorem engineRun_alert_ids :
    ∀ (ps : List ParsedPacket) (e : RuleEngine),
      ((RuleEngine.engineRun e ps).1.map (fun a => a.alert_id))
          = List.range' e.next_alert_id_ (RuleEngine.engineRun e ps).1.length
        ∧ (RuleEngine.engineRun e ps).2.next_alert_id_
          = e.next_alert_id_ + (RuleEngine.engineRun e ps).1.length := by
  intro ps
  induction ps with
  | nil => intro e; simp [RuleEngine.engineRun]
  | cons p rest ih =>
    intro e
    have hlen0 : (RuleEngine.evalLoop p e.rules_ e.next_alert_id_).1.length
        = (RuleEngine.matchedRules p e.rules_).length := by
      have h := congrArg List.length (evalLoop_alert_ids p e.rules_ e.next_alert_id_)
      simpa using h
    have hev : ((RuleEngine.evaluate e p).1.map (fun a => a.alert_id))
        = List.range' e.next_alert_id_ (RuleEngine.evaluate e p).1.length := by
      simp [RuleEngine.evaluate, evalLoop_alert_ids, hlen0]
    have hnext : (RuleEngine.evaluate e p).2.next_alert_id_
        = e.next_alert_id_ + (RuleEngine.evaluate e p).1.length := by
      have hlen : (RuleEngine.evalLoop p e.rules_ e.next_alert_id_).1.length
          = (RuleEngine.matchedRules p e.rules_).length := by
        have := congrArg List.length (evalLoop_alert_ids p e.rules_ e.next_alert_id_)
        simpa using this
      simp [RuleEngine.evaluate, evalLoop_snd_eq, hlen]
    obtain ⟨ihids, ihnext⟩ := ih (RuleEngine.evaluate e p).2
    constructor
    · simp only [RuleEngine.engineRun, List.map_append, List.length_append]
      rw [hev, ihids, hnext]
      have := List.range'_append e.next_alert_id_ (RuleEngine.evaluate e p).1.length
        ((RuleEngine.engineRun (RuleEngine.evaluate e p).2 rest).1.length) 1
      simp only [Nat.one_mul] at this
      rw [Nat.add_comm ((RuleEngine.evaluate e p).1.length)
        ((RuleEngine.engineRun (RuleEngine.evaluate e p).2 rest).1.length)]
      exact this
    · simp only [RuleEngine.engineRun, List.length_append]
      rw [ihnext, hnext]
      omega

/-- **C8.**  Alert ids are strictly increasing across a run (every alert's
id exceeds every earlier alert's), disabled rules contribute no alerts,
and for a single packet the alerts appear in rule-list (insertion)
order — their rule ids are exactly the matching rules' ids in list
order. -/
theorem C8_alert_ids_and_ordering :
    (∀ (e : RuleEngine) (ps : List ParsedPacket),
        List.Pairwise (fun a b => a.alert_id < b.alert_id) (RuleEngine.engineRun e ps).1)
    ∧ (∀ (e : RuleEngine) (p : ParsedPacket),
        (RuleEngine.evaluate e p).1
          = (RuleEngine.evaluate { e with rules_ := e.rules_.filter (fun r => r.enabled) } p).1)
    ∧ (∀ (e : RuleEngine) (p : ParsedPacket),
        ((RuleEngine.evaluate e p).1.map (fun a => a.rule_id))
          = (RuleEngine.matchedRules p e.rules_).map (fun r => r.rule_id)) := by
  refine ⟨?_, ?_, ?_⟩
  · intro e ps
    have h := (engineRun_alert_ids ps e).1
    have : List.Pairwise (· < ·)
        ((RuleEngine.engineRun e ps).1.map (fun a => a.alert_id)) := by
      rw [h]; exact List.pairwise_lt_range' ..
    exact List.pairwise_map.mp this
  · intro e p
    simp [RuleEngine.evaluate, evalLoop_filter_enabled]
  · intro e p
    simp [RuleEngine.evaluate, evalLoop_rule_ids]

/-- **C2, amended.**  For every packet and enabled rule, `evaluate`
checks protocol compatibility, IP filters, port lists, the TCP flag
predicate and the at-least-one content substring, aborting at the first
failing step — but there is **no regex step**: `regex_patterns` is never
read, so a rule with a non-empty `regex_patterns` list alerts whenever
the other predicates pass (the matching rules, in order, are exactly
what `evaluate` emits). -/
theorem C2_match_order_no_regex_step :
    (∀ (r : SignatureRule) (p : ParsedPacket),
        RuleEngine.ruleMatches r p = specRulePredicate r p)
    ∧ (∀ (r : SignatureRule) (p : ParsedPacket) (rps : List (List Nat)),
        RuleEngine.ruleMatches { r with regex_patterns := rps } p
          = RuleEngine.ruleMatches r p)
    ∧ (∀ (e : RuleEngine) (p : ParsedPacket),
        ((RuleEngine.evaluate e p).1.map (fun a => a.rule_id))
          = ((e.rules_.filter (fun r => r.enabled && RuleEngine.ruleMatches r p)).map
              (fun r => r.rule_id))) :=
  ⟨ruleMatches_eq_specRulePredicate,
   ruleMatches_regex_free,
   fun e p => by
    simp [RuleEngine.evaluate, evalLoop_rule_ids, RuleEngine.matchedRules]⟩

/-- Helper: reading through `List.drop` shifts the index. -/
theorem byteAt_drop (data : List Nat) (k i : Nat) :
    byteAt (data.drop k) i = byteAt data (k + i) := by
  simp [byteAt, List.getD_eq_getElem?_getD, List.getElem?_drop]

/-- **C4.**  Every input failing one of the three checks (length < 34,
ethertype ≠ 0x0800, version nibble ≠ 4) increments `parse_errors_`,
leaves `packets_parsed_` alone and yields a packet with neither transport
header set (so the spec's pipeline neither updates a flow nor alerts on
transport rules for it); every input passing all three increments
`packets_parsed_` and leaves `parse_errors_` alone. -/
theorem C4_parse_error_accounting :
    ∀ (s : PacketParser) (data : List Nat) (ts : Int),
      (specParseFails data →
        (PacketParser.parse s data ts).2.parse_errors_ = s.parse_errors_ + 1
        ∧ (PacketParser.parse s data ts).2.packets_parsed_ = s.packets_parsed_
        ∧ (PacketParser.parse s data ts).1.has_tcp = false
        ∧ (PacketParser.parse s data ts).1.has_udp = false)
      ∧ (¬specParseFails data →
        (PacketParser.parse s data ts).2.packets_parsed_ = s.packets_parsed_ + 1
        ∧ (PacketParser.parse s data ts).2.parse_errors_ = s.parse_errors_) := by
  intro s data ts
  by_cases h34 : data.length < 34
  · refine ⟨fun _ => ?_, fun hnf => absurd (Or.inl h34) hnf⟩
    have hv : ¬(34 ≤ data.length) := by omega
    simp [PacketParser.parse, PacketParser.validate_packet, hv, emptyPacket]
  · have h34' : 34 ≤ data.length := Nat.not_lt.mp h34
    have h14 : ¬(data.length < 14) := by omega
    by_cases heth : byteAt data 12 <<< 8 ||| byteAt data 13 = 0x0800
    · have h20 : ¬(data.length - 14 < 20) := by omega
      by_cases hver : (byteAt data 14 >>> 4) &&& 0x0F = 4
      · refine ⟨fun hf => ?_, fun _ => ?_⟩
        · rcases hf with h | h | h
          · exact absurd h h34
          · exact absurd heth h
          · exact absurd hver h
        · have hb : byteAt (data.drop 14) 0 = byteAt data 14 := by
            simpa using byteAt_drop data 14 0
          simp [PacketParser.parse, PacketParser.validate_packet, h34', h14,
            PacketParser.parse_ethernet, heth, PacketParser.parse_ipv4, h20, hb, hver]
      · refine ⟨fun _ => ?_, fun hnf => absurd (Or.inr (Or.inr hver)) hnf⟩
        have hb : byteAt (data.drop 14) 0 = byteAt data 14 := by
          simpa using byteAt_drop data 14 0
        simp [PacketParser.parse, PacketParser.validate_packet, h34', h14,
          PacketParser.parse_ethernet, heth, PacketParser.parse_ipv4, h20, hb, hver,
          emptyPacket]
    · refine ⟨fun _ => ?_, fun hnf => absurd (Or.inr (Or.inl heth)) hnf⟩
      simp [PacketParser.parse, PacketParser.validate_packet, h34', h14,
        PacketParser.parse_ethernet, heth, emptyPacket]

/-- **C4, witness.**  The theorem applied to a concrete 20-byte truncated
frame (which fails) and to a concrete valid 54-byte TCP frame (which
passes). -/
theorem C4_parse_error_accounting_witness :
    (specParseFails frameShort
      ∧ (PacketParser.parse PacketParser.init frameShort 0).2.parse_errors_
          = PacketParser.init.parse_errors_ + 1
      ∧ (PacketParser.parse PacketParser.init frameShort 0).2.packets_parsed_
          = PacketParser.init.packets_parsed_
      ∧ (PacketParser.parse PacketParser.init frameShort 0).1.has_tcp = false
      ∧ (PacketParser.parse PacketParser.init frameShort 0).1.has_udp = false)
    ∧ (¬specParseFails frameOk
      ∧ (PacketParser.parse PacketParser.init frameOk 0).2.packets_parsed_
          = PacketParser.init.packets_parsed_ + 1
      ∧ (PacketParser.parse PacketParser.init frameOk 0).2.parse_errors_
          = PacketParser.init.parse_errors_) :=
  ⟨⟨by unfold specParseFails; decide,
    (C4_parse_error_accounting PacketParser.init frameShort 0).1
      (by unfold specParseFails; decide)⟩,
   ⟨by unfold specParseFails; decide,
    (C4_parse_error_accounting PacketParser.init frameOk 0).2
      (by unfold specParseFails; decide)⟩⟩

/-- Helper: `parse_ethernet` only writes header fields. -/
theorem parse_ethernet_packet_id (data : List Nat) (pkt : ParsedPacket) :
    (PacketParser.parse_ethernet data pkt).1.packet_id = pkt.packet_id := by
  unfold PacketParser.parse_ethernet
  split <;> rfl

/-- Helper: `parse_ipv4` only writes header fields. -/
theorem parse_ipv4_packet_id (d : List Nat) (len : Nat) (pkt : ParsedPacket) :
    (PacketParser.parse_ipv4 d len pkt).1.packet_id = pkt.packet_id := by
  unfold PacketParser.parse_ipv4
  split
  · rfl
  · split <;> rfl

/-- Helper: `parse_tcp` only writes header and payload fields. -/
theorem parse_tcp_packet_id (data : List Nat) (ofs len : Nat) (pkt : ParsedPacket) :
    (PacketParser.parse_tcp data ofs len pkt).1.packet_id = pkt.packet_id := by
  unfold PacketParser.parse_tcp
  split
  · rfl
  · simp only []
    split <;> rfl

/-- Helper: `parse_udp` only writes header and payload fields. -/
theorem parse_udp_packet_id (data : List Nat) (ofs len : Nat) (pkt : ParsedPacket) :
    (PacketParser.parse_udp data ofs len pkt).1.packet_id = pkt.packet_id := by
  unfold PacketParser.parse_udp
  split
  · rfl
  · simp only []
    split <;> rfl

/-- Helper: every `parse` call stamps the current id, advances the id
counter by one, and increments exactly one of the two outcome
counters. -/
theorem parse_step (s : PacketParser) (data : List Nat) (ts : Int) :
    (PacketParser.parse s data ts).1.packet_id = s.next_packet_id_
    ∧ (PacketParser.parse s data ts).2.next_packet_id_ = s.next_packet_id_ + 1
    ∧ (((PacketParser.parse s data ts).2.packets_parsed_ = s.packets_parsed_ + 1
        ∧ (PacketParser.parse s data ts).2.parse_errors_ = s.parse_errors_)
      ∨ ((PacketParser.parse s data ts).2.packets_parsed_ = s.packets_parsed_
        ∧ (PacketParser.parse s data ts).2.parse_errors_ = s.parse_errors_ + 1)) := by
  by_cases h34 : data.length < 34
  · have hv : ¬(34 ≤ data.length) := by omega
    simp [PacketParser.parse, PacketParser.validate_packet, hv]
  · have h34' : 34 ≤ data.length := Nat.not_lt.mp h34
    have h14 : ¬(data.length < 14) := by omega
    by_cases heth : byteAt data 12 <<< 8 ||| byteAt data 13 = 0x0800
    · have h20 : ¬(data.length - 14 < 20) := by omega
      have hb : byteAt (data.drop 14) 0 = byteAt data 14 := by
        simpa using byteAt_drop data 14 0
      by_cases hver : (byteAt data 14 >>> 4) &&& 0x0F = 4
      · simp only [PacketParser.parse, PacketParser.validate_packet,
          PacketParser.parse_ethernet, PacketParser.parse_ipv4, h34', h14, h20, hb,
          heth, hver, if_false, if_true, Bool.not_true, Bool.not_false,
          Bool.false_eq_true, ite_false, ite_true, not_false_eq_true]
        refine ⟨?_, ?_, Or.inl ⟨?_, ?_⟩⟩
        · simp [apply_ite (fun q : ParsedPacket => q.packet_id),
            parse_tcp_packet_id, parse_udp_packet_id]
        · simp
        · simp
        · simp
      · simp [PacketParser.parse, PacketParser.validate_packet,
          PacketParser.parse_ethernet, PacketParser.parse_ipv4, h34', h14, h20, hb,
          heth, hver]
    · simp [PacketParser.parse, PacketParser.validate_packet,
        PacketParser.parse_ethernet, h34', h14, heth]

/-- Helper: a parser run emits consecutive packet ids from the starting
counter, and the two outcome counters account for every input. -/
theorem parseRun_accounting :
    ∀ (inputs : List (List Nat × Int)) (s : PacketParser),
      ((PacketParser.parseRun s inputs).1.map (fun p => p.packet_id))
          = List.range' s.next_packet_id_ inputs.length
      ∧ (PacketParser.parseRun s inputs).2.packets_parsed_
          + (PacketParser.parseRun s inputs).2.parse_errors_
          = s.packets_parsed_ + s.parse_errors_ + inputs.length := by
  intro inputs
  induction inputs with
  | nil => intro s; simp [PacketParser.parseRun]
  | cons dt rest ih =>
    intro s
    obtain ⟨hid, hnext, hcnt⟩ := parse_step s dt.1 dt.2
    obtain ⟨ihids, ihsum⟩ := ih (PacketParser.parse s dt.1 dt.2).2
    constructor
    · simp only [PacketParser.parseRun, List.map_cons, List.length_cons]
      rw [List.range'_succ, hid, ihids, hnext]
    · simp only [PacketParser.parseRun, List.length_cons]
      rcases hcnt with ⟨h1, h2⟩ | ⟨h1, h2⟩ <;> omega

/-- **C10.**  Every `parse` call stamps the current `next_packet_id_`,
advances it by one, and increments exactly one of `packets_parsed_` /
`parse_errors_`; consequently over any run from a fresh parser the two
counters sum to the number of calls and the emitted packet ids are
`1, 2, 3, …` — strictly increasing and unique, also for inputs that fail
to decode. -/
theorem C10_parse_counters_and_ids :
    (∀ (s : PacketParser) (data : List Nat) (ts : Int),
      (PacketParser.parse s data ts).1.packet_id = s.next_packet_id_
      ∧ (PacketParser.parse s data ts).2.next_packet_id_ = s.next_packet_id_ + 1
      ∧ (((PacketParser.parse s data ts).2.packets_parsed_ = s.packets_parsed_ + 1
          ∧ (PacketParser.parse s data ts).2.parse_errors_ = s.parse_errors_)
        ∨ ((PacketParser.parse s data ts).2.packets_parsed_ = s.packets_parsed_
          ∧ (PacketParser.parse s data ts).2.parse_errors_ = s.parse_errors_ + 1))
      ∧ (PacketParser.parse s data ts).2.packets_parsed_
          + (PacketParser.parse s data ts).2.parse_errors_
          = s.packets_parsed_ + s.parse_errors_ + 1)
    ∧ (∀ inputs : List (List Nat × Int),
      ((PacketParser.parseRun PacketParser.init inputs).1.map (fun p => p.packet_id))
          = List.range' 1 inputs.length
      ∧ (PacketParser.parseRun PacketParser.init inputs).2.packets_parsed_
          + (PacketParser.parseRun PacketParser.init inputs).2.parse_errors_
          = inputs.length
      ∧ List.Pairwise (fun a b => a.packet_id < b.packet_id)
          (PacketParser.parseRun PacketParser.init inputs).1) := by
  constructor
  · intro s data ts
    obtain ⟨h1, h2, h3⟩ := parse_step s data ts
    exact ⟨h1, h2, h3, by rcases h3 with ⟨a, b⟩ | ⟨a, b⟩ <;> omega⟩
  · intro inputs
    obtain ⟨hids, hsum⟩ := parseRun_accounting inputs PacketParser.init
    refine ⟨by simpa [PacketParser.init] using hids,
            by simpa [PacketParser.init] using hsum, ?_⟩
    have hpw : List.Pairwise (· < ·)
        ((PacketParser.parseRun PacketParser.init inputs).1.map (fun p => p.packet_id)) := by
      rw [hids]
      exact List.pairwise_lt_range' ..
    exact List.pairwise_map.mp hpw

/-- **C5, counterexample.**  Two updates sharing one 5-tuple with
decreasing timestamps (5000 ms then 3000 ms) leave the flow with
`last_seen < start_time` (and a negative duration), so the claimed
invariant fails without a monotone-timestamp assumption. -/
theorem C5_cex_time_regression :
    ConnectionTracker.create_key latePacket = ConnectionTracker.create_key earlyPacket
    ∧ ((((ConnectionTracker.init 120 100).update 0 latePacket).update 0 earlyPacket).connections_.map
        (fun e => decide (e.2.last_seen < e.2.start_time))) = [true] := by
  decide

/-- Helper: an update on an empty table (with a positive cap) creates the
flow and immediately applies the packet mutation. -/
theorem update_fresh (tr : ConnectionTracker) (now : Int) (p : ParsedPacket)
    (h : tr.connections_ = []) (hm : 0 < tr.max_connections_) :
    (tr.update now p).connections_ =
      [(ConnectionTracker.create_key p,
        ConnectionTracker.updateFlow (ConnectionTracker.initFlow p) p)] := by
  unfold ConnectionTracker.update
  have hnz : tr.max_connections_ ≠ 0 := Nat.pos_iff_ne_zero.mp hm
  simp [h, hnz]

/-- Helper: an update whose key is the single table entry's key applies
the packet mutation in place. -/
theorem update_existing (tr : ConnectionTracker) (now : Int) (p : ParsedPacket)
    (k : ConnectionKey) (f : FlowStats)
    (h : tr.connections_ = [(k, f)]) (hk : ConnectionTracker.create_key p = k) :
    (tr.update now p).connections_ = [(k, ConnectionTracker.updateFlow f p)] := by
  unfold ConnectionTracker.update
  simp [h, hk]

/-- Helper: the first packet of a flow establishes the invariant. -/
theorem updateFlow_init_invariant (p : ParsedPacket) :
    flowInvariant (ConnectionTracker.updateFlow (ConnectionTracker.initFlow p) p)
    ∧ (ConnectionTracker.updateFlow (ConnectionTracker.initFlow p) p).last_seen
        = p.timestamp := by
  cases hc : p.has_tcp <;>
    simp [flowInvariant, ConnectionTracker.updateFlow, ConnectionTracker.initFlow, hc]

/-- Helper: the invariant is preserved by a further packet whose
timestamp is not before the flow's `last_seen`. -/
theorem updateFlow_step_invariant (f : FlowStats) (p : ParsedPacket)
    (hinv : flowInvariant f) (hle : f.last_seen ≤ p.timestamp) :
    flowInvariant (ConnectionTracker.updateFlow f p)
    ∧ (ConnectionTracker.updateFlow f p).last_seen = p.timestamp := by
  obtain ⟨h1, h2, h3, h4, h5, h6, h7, h8, h9⟩ := hinv
  have hpos : 0 < f.fwd_pkt_lengths.length := by omega
  cases hc : p.has_tcp <;>
    simp [flowInvariant, ConnectionTracker.updateFlow, hc, hpos, h2, h3, h5, h6, h7,
      h8, h9] <;>
    omega

/-- Helper: folding further same-key packets with non-decreasing
timestamps through `update` keeps the table a singleton satisfying the
invariant. -/
theorem processEntries_single_key :
    ∀ (rest : List (Int × ParsedPacket)) (tr : ConnectionTracker)
      (k : ConnectionKey) (f : FlowStats),
      tr.connections_ = [(k, f)] →
      (∀ e ∈ rest, ConnectionTracker.create_key e.2 = k) →
      flowInvariant f →
      List.Chain (fun a b => a ≤ b) f.last_seen (rest.map (fun e => e.2.timestamp)) →
      ∃ f2, (ConnectionTracker.processEntries tr rest).connections_ = [(k, f2)]
        ∧ flowInvariant f2 := by
  intro rest
  induction rest with
  | nil =>
    intro tr k f h1 _ h3 _
    exact ⟨f, by simpa [ConnectionTracker.processEntries] using h1, h3⟩
  | cons e rest ih =>
    intro tr k f h1 h2 h3 h4
    rw [List.map_cons, List.chain_cons] at h4
    obtain ⟨hle, hchain⟩ := h4
    have hk : ConnectionTracker.create_key e.2 = k := h2 e (List.mem_cons_self e rest)
    have hstep := updateFlow_step_invariant f e.2 h3 hle
    have hupd := update_existing tr e.1 e.2 k f h1 hk
    have hrun : ConnectionTracker.processEntries tr (e :: rest)
        = ConnectionTracker.processEntries (tr.update e.1 e.2) rest := by
      simp [ConnectionTracker.processEntries]
    rw [hrun]
    refine ih (tr.update e.1 e.2) k (ConnectionTracker.updateFlow f e.2) hupd
      (fun x hx => h2 x (List.mem_cons_of_mem e hx)) hstep.1 ?_
    rw [hstep.2]
    exact hchain

/-- **C5, amended.**  For any non-empty sequence of update calls sharing
one 5-tuple **with non-decreasing timestamps** (the counterexample shows
the timing clauses fail without this assumption, which the code never
checks), the resulting flow satisfies: `fwd_packets` equals the length of
`fwd_pkt_lengths`, the length of `fwd_iat` equals `fwd_packets - 1`
(natural subtraction, i.e. `max 0 (fwd_packets - 1)`), `last_seen ≥
start_time`, `duration` equals `last_seen - start_time` in seconds, and
the same holds for the backward-direction fields (which stay empty, every
packet being counted forward). -/
theorem C5_flow_invariants :
    ∀ (timeout maxc : Nat) (entries : List (Int × ParsedPacket))
      (k : ConnectionKey) (e0 : Int × ParsedPacket),
      0 < maxc →
      (∀ e ∈ e0 :: entries, ConnectionTracker.create_key e.2 = k) →
      List.Chain' (fun a b => a.2.timestamp ≤ b.2.timestamp) (e0 :: entries) →
      ∃ f, (ConnectionTracker.processEntries (ConnectionTracker.init timeout maxc)
              (e0 :: entries)).connections_ = [(k, f)]
        ∧ f.fwd_packets = f.fwd_pkt_lengths.length
        ∧ f.fwd_iat.length = f.fwd_packets - 1
        ∧ f.start_time ≤ f.last_seen
        ∧ f.duration = ((f.last_seen - f.start_time : Int) : Rat) / 1000
        ∧ f.bwd_packets = f.bwd_pkt_lengths.length
        ∧ f.bwd_iat.length = f.bwd_packets - 1 := by
  intro timeout maxc entries k e0 hmax hkeys hchain
  have hk0 : ConnectionTracker.create_key e0.2 = k :=
    hkeys e0 (List.mem_cons_self e0 entries)
  have hfresh := update_fresh (ConnectionTracker.init timeout maxc) e0.1 e0.2 rfl hmax
  rw [hk0] at hfresh
  have hbase := updateFlow_init_invariant e0.2
  have hchain2 : List.Chain (fun a b => a ≤ b)
      (ConnectionTracker.updateFlow (ConnectionTracker.initFlow e0.2) e0.2).last_seen
      (entries.map (fun e => e.2.timestamp)) := by
    rw [hbase.2]
    exact (List.chain_map (fun e : Int × ParsedPacket => e.2.timestamp)).mpr hchain
  have hrun : ConnectionTracker.processEntries (ConnectionTracker.init timeout maxc)
      (e0 :: entries)
      = ConnectionTracker.processEntries
          ((ConnectionTracker.init timeout maxc).update e0.1 e0.2) entries := by
    simp [ConnectionTracker.processEntries]
  obtain ⟨f2, hf2, hinv⟩ := processEntries_single_key entries
    ((ConnectionTracker.init timeout maxc).update e0.1 e0.2) k
    (ConnectionTracker.updateFlow (ConnectionTracker.initFlow e0.2) e0.2)
    hfresh (fun x hx => hkeys x (List.mem_cons_of_mem e0 hx)) hbase.1 hchain2
  obtain ⟨i1, i2, i3, i4, i5, i6, i7, i8, i9⟩ := hinv
  exact ⟨f2, by rw [hrun]; exact hf2, i2, i3, i4, i5, by simp [i6, i9], by simp [i6, i8]⟩

/-- **C5, amended, witness.**  The theorem applied to two concrete
same-key packets stamped 3000 ms then 5000 ms, in a tracker with
timeout 120 s and cap 100. -/
theorem C5_flow_invariants_witness :
    ∃ f, (ConnectionTracker.processEntries (ConnectionTracker.init 120 100)
            [(0, earlyPacket), (0, latePacket)]).connections_
          = [(ConnectionTracker.create_key earlyPacket, f)]
      ∧ f.fwd_packets = f.fwd_pkt_lengths.length
      ∧ f.fwd_iat.length = f.fwd_packets - 1
      ∧ f.start_time ≤ f.last_seen
      ∧ f.duration = ((f.last_seen - f.start_time : Int) : Rat) / 1000
      ∧ f.bwd_packets = f.bwd_pkt_lengths.length
      ∧ f.bwd_iat.length = f.bwd_packets - 1 :=
  C5_flow_invariants 120 100 [(0, latePacket)]
    (ConnectionTracker.create_key earlyPacket) (0, earlyPacket)
    (by decide) (by decide)
    (List.chain'_cons.mpr ⟨by decide, List.chain'_singleton _⟩)

end HybridIds
